import Mathlib

/-!
Verification of the serializer registry, session and feature subsystem of
raptor_serialize.c (libraptor). The C code is shallowly embedded: the
serializer struct becomes a Lean structure, factory callbacks become Lean
functions carried in a factory record, and every fallible C routine returns
its int status code next to the updated state. Machine ints are modelled as
Int; size_t wraparound is made explicit where it matters. Heap release of
owned strings is made observable by returning the list of strings freed by a
call, so that claims about releasing previous values can be stated.
-/

/- ===== Feature identifiers (raptor_feature enum, as enumerated by the
   switch statements of raptor_serialize.c) ===== -/

inductive raptor_feature where
  | SCANNING
  | ASSUME_IS_RDF
  | ALLOW_NON_NS_ATTRIBUTES
  | ALLOW_OTHER_PARSETYPES
  | ALLOW_BAGID
  | ALLOW_RDF_TYPE_RDF_LIST
  | NORMALIZE_LANGUAGE
  | NON_NFC_FATAL
  | WARN_OTHER_PARSETYPES
  | CHECK_RDF_ID
  | RELATIVE_URIS
  | START_URI
  | WRITER_AUTO_INDENT
  | WRITER_AUTO_EMPTY
  | WRITER_INDENT_WIDTH
  | WRITER_XML_VERSION
  | WRITER_XML_DECLARATION
  | NO_NET
  | RESOURCE_BORDER
  | LITERAL_BORDER
  | BNODE_BORDER
  | RESOURCE_FILL
  | LITERAL_FILL
  | BNODE_FILL
  | HTML_TAG_SOUP
deriving DecidableEq, Repr

/-- Features that the serializer switch statements group as belonging to the
input-parsing role (the cases commented as parser features in
raptor_serializer_set_feature). -/
def is_parser_role_feature (feature : raptor_feature) : Bool :=
  match feature with
  | .SCANNING | .ASSUME_IS_RDF | .ALLOW_NON_NS_ATTRIBUTES
  | .ALLOW_OTHER_PARSETYPES | .ALLOW_BAGID | .ALLOW_RDF_TYPE_RDF_LIST
  | .NORMALIZE_LANGUAGE | .NON_NFC_FATAL | .WARN_OTHER_PARSETYPES
  | .CHECK_RDF_ID | .HTML_TAG_SOUP => true
  | _ => false

/-- The six GraphViz border and fill style features, the string-typed
features stored directly in serializer fields. -/
def is_border_fill_feature (feature : raptor_feature) : Bool :=
  match feature with
  | .RESOURCE_BORDER | .LITERAL_BORDER | .BNODE_BORDER
  | .RESOURCE_FILL | .LITERAL_FILL | .BNODE_FILL => true
  | _ => false

/-- Modelled from the spec: raptor_feature_value_type lives outside this
source file (raptor_general.c). Per the spec, each identifier is tagged
integer-valued or string-valued; the string-valued ones are the six
border and fill style options plus the start-URI option, and the function
returns 1 for string type and 0 for integer type. -/
def raptor_feature_value_type (feature : raptor_feature) : Int :=
  match feature with
  | .START_URI | .RESOURCE_BORDER | .LITERAL_BORDER | .BNODE_BORDER
  | .RESOURCE_FILL | .LITERAL_FILL | .BNODE_FILL => 1
  | _ => 0

/- ===== Serializer state (struct raptor_serializer_s fields used by
   raptor_serialize.c) ===== -/

/-- Locator record: identifier plus line and column (raptor_locator). URIs
are modelled as their strings. -/
structure raptor_locator where
  uri : Option String
  line : Int
  column : Int
deriving DecidableEq, Repr

/-- The mutable fields of struct raptor_serializer_s that the code in
raptor_serialize.c reads or writes. The iostream (the sink) and the owned
strings are Option values, absent meaning NULL. The factory-owned private
state block (context) is abstracted as a Nat. Handlers are function
pointers in C; here a registered handler is the token some h and NULL is
none, and handler invocations are recorded as events (see diag_result). -/
structure SerializerState where
  iostream : Option Nat
  base_uri : Option String
  locator : raptor_locator
  feature_relative_uris : Int
  xml_version : Int
  feature_write_xml_declaration : Int
  feature_start_uri : Option String
  feature_resource_border : Option String
  feature_literal_border : Option String
  feature_bnode_border : Option String
  feature_resource_fill : Option String
  feature_literal_fill : Option String
  feature_bnode_fill : Option String
  error_handler : Option Nat
  error_user_data : Nat
  warning_handler : Option Nat
  warning_user_data : Nat
  context : Nat
deriving DecidableEq, Repr

/-- Statements are passed through unexamined by this layer; an opaque token
suffices. -/
abbrev raptor_statement := Nat

/-- Factory descriptor (raptor_serializer_factory): immutable identity
strings plus the callback table. Callbacks that the C marks optional (may
be NULL) are Option-valued. The init callback is modelled from the spec:
concrete syntax modules live outside this source file, and per the spec the
private_state block is exclusively owned by the factory callbacks, so init
receives the requested name and the zeroed context and returns its status
code and the initialized context. The session callbacks act on the whole
serializer state, as in C, where they may write the sink and advance the
locator. -/
structure raptor_serializer_factory where
  name : String
  label : String
  «alias» : Option String
  mime_type : Option String
  uri_string : Option String
  init : Option String → Nat → Int × Nat
  serialize_start : Option (SerializerState → Int × SerializerState)
  serialize_statement : SerializerState → raptor_statement → Int × SerializerState
  serialize_end : Option (SerializerState → Int × SerializerState)

/-- A serializer instance: the fixed factory reference plus the mutable
state. -/
structure RaptorSerializer where
  factory : raptor_serializer_factory
  state : SerializerState

/- ===== Registry lookup (raptor_get_serializer_factory) ===== -/

/-- The match test of the lookup loop: the factory name equals the wanted
name, or the factory has an alias and it equals the wanted name. -/
def factory_name_matches (factory : raptor_serializer_factory) (name : String) : Bool :=
  factory.name == name ||
    (match factory.«alias» with
     | some a => a == name
     | none => false)

/-- raptor_get_serializer_factory: with no name, return the first registered
factory (or none if the registry is empty); with a name, scan in
registration order and return the first factory whose name or alias matches,
or none when no factory matches. -/
def raptor_get_serializer_factory
    (serializers : List raptor_serializer_factory) (name : Option String) :
    Option raptor_serializer_factory :=
  match name with
  | none => serializers.head?
  | some n => serializers.find? (fun factory => factory_name_matches factory n)

/-- raptor_serializer_syntax_name_check: the name denotes a known syntax iff
lookup finds a factory. -/
def raptor_serializer_syntax_name_check
    (serializers : List raptor_serializer_factory) (name : String) : Bool :=
  (raptor_get_serializer_factory serializers (some name)).isSome

/-- The identifiers one descriptor answers to: its name followed by its
alias when present. -/
def factory_idents (factory : raptor_serializer_factory) : List String :=
  factory.name :: factory.«alias».toList

/-- All identifiers of a registry, in registration order. -/
def registry_idents : List raptor_serializer_factory → List String
  | [] => []
  | factory :: rest => factory_idents factory ++ registry_idents rest

/- ===== Construction (raptor_new_serializer) ===== -/

/-- The serializer state right after RAPTOR_CALLOC zeroes the instance and
raptor_new_serializer applies the default features: relative URIs on, the
six border and fill strings NULL, XML version 10, XML declaration on.
Every other field is zero or NULL from calloc. -/
def fresh_serializer_state : SerializerState :=
  { iostream := none
    base_uri := none
    locator := { uri := none, line := 0, column := 0 }
    feature_relative_uris := 1
    xml_version := 10
    feature_write_xml_declaration := 1
    feature_start_uri := none
    feature_resource_border := none
    feature_literal_border := none
    feature_bnode_border := none
    feature_resource_fill := none
    feature_literal_fill := none
    feature_bnode_fill := none
    error_handler := none
    error_user_data := 0
    warning_handler := none
    warning_user_data := 0
    context := 0 }

/-- raptor_new_serializer: look the factory up by name (none meaning the
default); on a miss fail. Otherwise build the zeroed instance, apply the
default features, then run the factory init callback on the name and the
zeroed context; a nonzero init status destroys the instance and fails.
Allocation is modelled as succeeding. -/
def raptor_new_serializer
    (serializers : List raptor_serializer_factory) (name : Option String) :
    Option RaptorSerializer :=
  match raptor_get_serializer_factory serializers name with
  | none => none
  | some factory =>
    let r := factory.init name 0
    if r.1 = 0 then
      some { factory := factory, state := { fresh_serializer_state with context := r.2 } }
    else
      none

/- ===== Session operations ===== -/

/-- raptor_serialize_statement: with no active sink, fail with 1 touching
nothing; otherwise delegate to the mandatory serialize_statement callback
and return its status verbatim. -/
def raptor_serialize_statement (rdf_serializer : RaptorSerializer)
    (statement : raptor_statement) : Int × RaptorSerializer :=
  match rdf_serializer.state.iostream with
  | none => (1, rdf_serializer)
  | some _ =>
    let r := rdf_serializer.factory.serialize_statement rdf_serializer.state statement
    (r.1, { rdf_serializer with state := r.2 })

/-- raptor_serialize_end: with no active sink, fail with 1. Otherwise run
the optional serialize_end callback (status 0 when absent), then release the
iostream unconditionally, setting it absent, and return the callback
status. The C rechecks the iostream pointer before freeing; since the
field ends up NULL either way, the embedding sets it to none directly. -/
def raptor_serialize_end (rdf_serializer : RaptorSerializer) : Int × RaptorSerializer :=
  match rdf_serializer.state.iostream with
  | none => (1, rdf_serializer)
  | some _ =>
    let r :=
      match rdf_serializer.factory.serialize_end with
      | some f => f rdf_serializer.state
      | none => (0, rdf_serializer.state)
    (r.1, { rdf_serializer with state := { r.2 with iostream := none } })

/- ===== Integer feature set and get ===== -/

/-- raptor_serializer_set_feature: reject negative values with -1 before the
switch; store relative-URI and XML-declaration values directly; store the
XML version only when it is 10 or 11, silently keeping the old value
otherwise; START_URI, the parser-role features, NO_NET, the XML writer
features and the string features all fall to the -1 arm without mutation. -/
def raptor_serializer_set_feature (serializer : SerializerState)
    (feature : raptor_feature) (value : Int) : Int × SerializerState :=
  if value < 0 then
    (-1, serializer)
  else
    match feature with
    | .RELATIVE_URIS =>
        (0, { serializer with feature_relative_uris := value })
    | .WRITER_XML_VERSION =>
        (0, if value = 10 || value = 11 then
              { serializer with xml_version := value }
            else serializer)
    | .WRITER_XML_DECLARATION =>
        (0, { serializer with feature_write_xml_declaration := value })
    | .START_URI => (-1, serializer)
    | .SCANNING | .ASSUME_IS_RDF | .ALLOW_NON_NS_ATTRIBUTES
    | .ALLOW_OTHER_PARSETYPES | .ALLOW_BAGID | .ALLOW_RDF_TYPE_RDF_LIST
    | .NORMALIZE_LANGUAGE | .NON_NFC_FATAL | .WARN_OTHER_PARSETYPES
    | .CHECK_RDF_ID | .HTML_TAG_SOUP
    | .NO_NET
    | .WRITER_AUTO_INDENT | .WRITER_AUTO_EMPTY | .WRITER_INDENT_WIDTH
    | .RESOURCE_BORDER | .LITERAL_BORDER | .BNODE_BORDER
    | .RESOURCE_FILL | .LITERAL_FILL | .BNODE_FILL =>
        (-1, serializer)

/-- raptor_serializer_get_feature: result starts at -1; RELATIVE_URIS reads
as 0 or 1, the XML version and XML declaration fields are returned directly,
and every string-typed, parser-role or other identifier keeps -1. -/
def raptor_serializer_get_feature (serializer : SerializerState)
    (feature : raptor_feature) : Int :=
  match feature with
  | .RELATIVE_URIS => if serializer.feature_relative_uris ≠ 0 then 1 else 0
  | .WRITER_XML_VERSION => serializer.xml_version
  | .WRITER_XML_DECLARATION => serializer.feature_write_xml_declaration
  | _ => -1

/- ===== String feature set and get ===== -/

/-- Accumulate the decimal digits at the head of the character list onto an
accumulator, stopping at the first non-digit. -/
def leading_digits_value : List Char → Nat → Nat
  | c :: rest, acc =>
      if c.isDigit then leading_digits_value rest (acc * 10 + (c.toNat - 48))
      else acc
  | [], acc => acc

/-- Modelled from the spec of the C library function atoi used by
raptor_serializer_set_feature_string: skip leading whitespace, accept an
optional sign, and read the leading run of decimal digits. -/
def atoi (value : String) : Int :=
  let rest := value.data.dropWhile (fun c =>
    c == ' ' || c == '\t' || c == '\n' || c == '\x0b' || c == '\x0c' || c == '\r')
  match rest with
  | '-' :: digits => -(leading_digits_value digits 0 : Int)
  | '+' :: digits => (leading_digits_value digits 0 : Int)
  | _ => (leading_digits_value rest 0 : Int)

/-- raptor_serializer_copy_string: free the previous string held in dest if
there is one, then store a fresh owned copy of src and return 0. Allocation
of the copy is modelled as succeeding (on failure the C returns -1 with dest
left NULL). The freed component lists the strings released by the call. -/
def raptor_serializer_copy_string (dest : Option String) (src : String) :
    Int × Option String × List String :=
  (0, some src, dest.toList)

/-- Result of a string feature update: the int status, the updated state,
and the owned strings the call released. -/
structure set_string_result where
  rc : Int
  state : SerializerState
  freed : List String
deriving DecidableEq, Repr

/-- raptor_serializer_set_feature_string: when the feature is not
string-typed, convert the value with atoi and delegate to the integer
setter (freeing nothing). START_URI stores a new URI parsed from the value
without releasing any previous one. Each border and fill feature delegates
to raptor_serializer_copy_string on its field, which frees the previous
value. Every other feature answers -1 without mutation. A NULL value is
not modelled: the START_URI arm would reject it and the copy arms would
pass it to strlen. -/
def raptor_serializer_set_feature_string (serializer : SerializerState)
    (feature : raptor_feature) (value : String) : set_string_result :=
  let value_is_string : Bool := raptor_feature_value_type feature == 1
  if !value_is_string then
    let r := raptor_serializer_set_feature serializer feature (atoi value)
    { rc := r.1, state := r.2, freed := [] }
  else
    match feature with
    | .START_URI =>
        { rc := 0, state := { serializer with feature_start_uri := some value },
          freed := [] }
    | .RESOURCE_BORDER =>
        let r := raptor_serializer_copy_string serializer.feature_resource_border value
        { rc := r.1, state := { serializer with feature_resource_border := r.2.1 },
          freed := r.2.2 }
    | .LITERAL_BORDER =>
        let r := raptor_serializer_copy_string serializer.feature_literal_border value
        { rc := r.1, state := { serializer with feature_literal_border := r.2.1 },
          freed := r.2.2 }
    | .BNODE_BORDER =>
        let r := raptor_serializer_copy_string serializer.feature_bnode_border value
        { rc := r.1, state := { serializer with feature_bnode_border := r.2.1 },
          freed := r.2.2 }
    | .RESOURCE_FILL =>
        let r := raptor_serializer_copy_string serializer.feature_resource_fill value
        { rc := r.1, state := { serializer with feature_resource_fill := r.2.1 },
          freed := r.2.2 }
    | .LITERAL_FILL =>
        let r := raptor_serializer_copy_string serializer.feature_literal_fill value
        { rc := r.1, state := { serializer with feature_literal_fill := r.2.1 },
          freed := r.2.2 }
    | .BNODE_FILL =>
        let r := raptor_serializer_copy_string serializer.feature_bnode_fill value
        { rc := r.1, state := { serializer with feature_bnode_fill := r.2.1 },
          freed := r.2.2 }
    | _ => { rc := -1, state := serializer, freed := [] }

/-- raptor_serializer_get_feature_string: NULL for every feature that is not
string-typed; START_URI renders the stored URI back to a string when set;
each border and fill feature returns its stored field; everything else
gives NULL. -/
def raptor_serializer_get_feature_string (serializer : SerializerState)
    (feature : raptor_feature) : Option String :=
  let value_is_string : Bool := raptor_feature_value_type feature == 1
  if !value_is_string then none
  else
    match feature with
    | .START_URI =>
        match serializer.feature_start_uri with
        | some u => some u
        | none => none
    | .RESOURCE_BORDER => serializer.feature_resource_border
    | .LITERAL_BORDER => serializer.feature_literal_border
    | .BNODE_BORDER => serializer.feature_bnode_border
    | .RESOURCE_FILL => serializer.feature_resource_fill
    | .LITERAL_FILL => serializer.feature_literal_fill
    | .BNODE_FILL => serializer.feature_bnode_fill
    | _ => none

/-- Two successive string feature updates on the same feature: the result of
the first call, and of the second call run on the state the first produced. -/
def set_string_twice (serializer : SerializerState) (feature : raptor_feature)
    (value1 value2 : String) : set_string_result × set_string_result :=
  let r1 := raptor_serializer_set_feature_string serializer feature value1
  (r1, raptor_serializer_set_feature_string r1.state feature value2)

/- ===== Diagnostics ===== -/

/-- Message buffers in the diagnostic path are byte strings, modelled as
character lists so that the trailing newline manipulation of the C is
explicit. -/
abbrev msg_buffer := List Char

/-- The trailing newline strip both varargs reporters perform on the
formatted buffer before invoking a handler: the C reads buffer at index
length-1 and overwrites a final newline with a terminator. For the empty
buffer the C read is out of bounds (see strip_read_in_bounds); the
embedding leaves the empty buffer unchanged, the behavior when the junk
byte read is not a newline. -/
def chomp_newline (buffer : msg_buffer) : msg_buffer :=
  match buffer.getLast? with
  | some c => if c = '\n' then buffer.dropLast else buffer
  | none => buffer

/-- Index the strip step reads, under C size_t arithmetic: length - 1
wraps to 2 to the power 64 minus 1 when the buffer length is 0. -/
def strip_read_index (length : Nat) : Nat :=
  (length + 2 ^ 64 - 1) % 2 ^ 64

/-- Whether the strip step read at index length-1 stays inside the
formatted buffer. -/
def strip_read_in_bounds (buffer : msg_buffer) : Bool :=
  decide (strip_read_index buffer.length < buffer.length)

/-- Observable effects of one diagnostic report: the bytes written to the
fallback stream (stderr), and the handler invocations, each recording the
user-data token, the locator passed, and the message text delivered. -/
structure diag_result where
  stderr_out : msg_buffer
  handler_calls : List (Nat × raptor_locator × msg_buffer)
deriving DecidableEq, Repr

/-- raptor_serializer_error_varargs. The rendering of the message template
and arguments is abstracted: formatted is the text the C formatting
produces, and alloc_ok tells whether the raptor_vsnprintf allocation in the
handler branch succeeds (the fallback branch prints directly and performs
no allocation). With a handler registered: on allocation failure print a
fixed out-of-memory line; otherwise strip one trailing newline and invoke
the handler once with the user data, the locator and the stripped buffer,
writing nothing to stderr. With no handler: print the locator (rendered by
the external raptor_print_locator, abstracted as printLocator), the error
label, the message, and a final newline. -/
def raptor_serializer_error_varargs (printLocator : raptor_locator → msg_buffer)
    (serializer : SerializerState) (formatted : msg_buffer) (alloc_ok : Bool) :
    diag_result :=
  match serializer.error_handler with
  | some _ =>
    if alloc_ok then
      { stderr_out := [],
        handler_calls :=
          [(serializer.error_user_data, serializer.locator, chomp_newline formatted)] }
    else
      { stderr_out := "raptor_serializer_error_varargs: Out of memory\n".data,
        handler_calls := [] }
  | none =>
    { stderr_out :=
        printLocator serializer.locator ++ " raptor error - ".data
          ++ formatted ++ ['\n'],
      handler_calls := [] }

/-- raptor_serializer_warning_varargs: identical to the error path except
for the handler slot, the user data slot and the label text. -/
def raptor_serializer_warning_varargs (printLocator : raptor_locator → msg_buffer)
    (serializer : SerializerState) (formatted : msg_buffer) (alloc_ok : Bool) :
    diag_result :=
  match serializer.warning_handler with
  | some _ =>
    if alloc_ok then
      { stderr_out := [],
        handler_calls :=
          [(serializer.warning_user_data, serializer.locator, chomp_newline formatted)] }
    else
      { stderr_out := "raptor_serializer_warning_varargs: Out of memory\n".data,
        handler_calls := [] }
  | none =>
    { stderr_out :=
        printLocator serializer.locator ++ " raptor warning - ".data
          ++ formatted ++ ['\n'],
      handler_calls := [] }

/- ===== Concrete fixtures used to evaluate the model ===== -/

/-- An init callback that accepts every name and keeps the zeroed context. -/
def trivial_init : Option String → Nat → Int × Nat := fun _ ctx => (0, ctx)

/-- An emit callback that succeeds and counts its invocations in the
factory-owned context. -/
def counting_emit : SerializerState → raptor_statement → Int × SerializerState :=
  fun s _ => (0, { s with context := s.context + 1 })

/-- An end-of-session callback that reports failure status 7 and counts its
invocations in the factory-owned context. -/
def failing_counting_end_hook : SerializerState → Int × SerializerState :=
  fun s => (7, { s with context := s.context + 1 })

/-- A concrete descriptor registered under the primary name ntriples with
no alias. -/
def ntriples_factory : raptor_serializer_factory :=
  { name := "ntriples", label := "N-Triples", «alias» := none,
    mime_type := some "text/plain", uri_string := none,
    init := trivial_init, serialize_start := none,
    serialize_statement := counting_emit,
    serialize_end := some failing_counting_end_hook }

/-- A concrete descriptor whose alias collides with the primary name of
ntriples_factory; the registration path only rejects duplicate primary
names, so this registry is reachable. -/
def turtle_factory : raptor_serializer_factory :=
  { name := "turtle", label := "Turtle", «alias» := some "ntriples",
    mime_type := none, uri_string := none,
    init := trivial_init, serialize_start := none,
    serialize_statement := counting_emit, serialize_end := none }

/-- A concrete descriptor with an alias that collides with nothing. -/
def rdfxml_factory : raptor_serializer_factory :=
  { name := "rdfxml", label := "RDF/XML", «alias» := some "rdf",
    mime_type := some "application/rdf+xml", uri_string := none,
    init := trivial_init, serialize_start := none,
    serialize_statement := counting_emit, serialize_end := none }

/-- Registry in which the alias of the second descriptor is shadowed by the
primary name of the first. -/
def alias_shadow_registry : List raptor_serializer_factory :=
  [ntriples_factory, turtle_factory]

/-- Registry whose names and aliases are pairwise distinct. -/
def distinct_registry : List raptor_serializer_factory :=
  [ntriples_factory, rdfxml_factory]

/-- The name of the descriptor a lookup returns, when one is found. -/
def lookup_result_name (serializers : List raptor_serializer_factory)
    (n : String) : Option String :=
  (raptor_get_serializer_factory serializers (some n)).map (fun factory => factory.name)

/-- A factory identical to ntriples_factory except that it has no
end-of-session callback. -/
def no_end_factory : raptor_serializer_factory :=
  { ntriples_factory with serialize_end := none }

/-- An instance with no active session: the sink is absent. -/
def idle_serializer : RaptorSerializer :=
  { factory := ntriples_factory, state := fresh_serializer_state }

/-- An instance with an active session on sink 0, zero statements emitted. -/
def active_serializer : RaptorSerializer :=
  { factory := ntriples_factory,
    state := { fresh_serializer_state with iostream := some 0 } }

/-- An active instance whose factory has no end-of-session callback. -/
def active_no_end_serializer : RaptorSerializer :=
  { factory := no_end_factory,
    state := { fresh_serializer_state with iostream := some 0 } }

/-- The instance raptor_new_serializer builds from distinct_registry for the
name ntriples. -/
def demo_instance : RaptorSerializer :=
  { factory := ntriples_factory, state := fresh_serializer_state }

/-- A state with both diagnostic handlers registered. -/
def handler_state : SerializerState :=
  { fresh_serializer_state with
    error_handler := some 1, error_user_data := 5,
    warning_handler := some 2, warning_user_data := 6 }

/- ===== Theorems ===== -/

/-- Claim C1: with no active session (absent sink) emit fails with status 1
and mutates nothing, in particular neither the locator nor the sink; with
an active session it delegates to the mandatory emit callback of the
factory and returns that callback status verbatim, its state update
applied. -/
theorem serialize_statement_session_spec (rs : RaptorSerializer)
    (statement : raptor_statement) :
    (rs.state.iostream = none →
      raptor_serialize_statement rs statement = (1, rs))
    ∧ (∀ sink, rs.state.iostream = some sink →
      raptor_serialize_statement rs statement =
        ((rs.factory.serialize_statement rs.state statement).1,
         { rs with state := (rs.factory.serialize_statement rs.state statement).2 })) := by
  constructor
  · intro h
    simp [raptor_serialize_statement, h]
  · intro sink h
    simp [raptor_serialize_statement, h]

/-- Witness for C1: on a concrete idle instance emit fails leaving the
instance untouched; on a concrete active instance it returns the callback
result, whose invocation count shows one delegation. -/
theorem serialize_statement_session_spec_witness :
    raptor_serialize_statement idle_serializer 3 = (1, idle_serializer)
    ∧ raptor_serialize_statement active_serializer 3 =
        (0, { factory := ntriples_factory,
              state := { fresh_serializer_state with iostream := some 0, context := 1 } }) := by
  constructor
  · exact (serialize_statement_session_spec idle_serializer 3).1 rfl
  · exact ((serialize_statement_session_spec active_serializer 3).2 0 rfl).trans rfl

/-- Claim C2: on an active session, end runs the optional end callback of
the factory exactly once, returns its status (0 when the callback is
absent), and releases the sink unconditionally, leaving it absent even when
the callback failed; with no active session it fails with status 1. -/
theorem serialize_end_session_spec (rs : RaptorSerializer) :
    (rs.state.iostream = none → raptor_serialize_end rs = (1, rs))
    ∧ (∀ sink f, rs.state.iostream = some sink →
        rs.factory.serialize_end = some f →
        raptor_serialize_end rs =
          ((f rs.state).1,
           { rs with state := { (f rs.state).2 with iostream := none } }))
    ∧ (∀ sink, rs.state.iostream = some sink →
        rs.factory.serialize_end = none →
        raptor_serialize_end rs =
          (0, { rs with state := { rs.state with iostream := none } })) := by
  refine ⟨?_, ?_, ?_⟩
  · intro h
    simp [raptor_serialize_end, h]
  · intro sink f h hf
    simp [raptor_serialize_end, h, hf]
  · intro sink h hf
    simp [raptor_serialize_end, h, hf]

/-- Witness for C2: ending a concrete active session whose end callback
fails with status 7 still leaves the sink absent, and the context counter
shows the callback ran exactly once; with the callback absent the status is
0; on an idle instance end fails with 1. -/
theorem serialize_end_session_spec_witness :
    raptor_serialize_end idle_serializer = (1, idle_serializer)
    ∧ raptor_serialize_end active_serializer =
        (7, { factory := ntriples_factory,
              state := { fresh_serializer_state with iostream := none, context := 1 } })
    ∧ raptor_serialize_end active_no_end_serializer =
        (0, { factory := no_end_factory,
              state := { fresh_serializer_state with iostream := none } }) := by
  refine ⟨?_, ?_, ?_⟩
  · exact (serialize_end_session_spec idle_serializer).1 rfl
  · exact ((serialize_end_session_spec active_serializer).2.1 0
      failing_counting_end_hook rfl rfl).trans rfl
  · exact ((serialize_end_session_spec active_no_end_serializer).2.2 0 rfl rfl).trans rfl

/-- Claim C5: the integer setter on the XML version feature accepts 10 and
11 and stores them; any other non-negative value is silently ignored with
success status 0 and the stored version unchanged; after storing 11 the
integer getter returns 11. -/
theorem xml_version_feature_spec (s : SerializerState) (v : Int) :
    (0 ≤ v → v ≠ 10 → v ≠ 11 →
      raptor_serializer_set_feature s .WRITER_XML_VERSION v = (0, s))
    ∧ raptor_serializer_set_feature s .WRITER_XML_VERSION 10
        = (0, { s with xml_version := 10 })
    ∧ raptor_serializer_set_feature s .WRITER_XML_VERSION 11
        = (0, { s with xml_version := 11 })
    ∧ raptor_serializer_get_feature
        (raptor_serializer_set_feature s .WRITER_XML_VERSION 11).2
        .WRITER_XML_VERSION = 11 := by
  refine ⟨?_, ?_, ?_, ?_⟩
  · intro h0 h10 h11
    have hneg : ¬ v < 0 := not_lt.mpr h0
    simp [raptor_serializer_set_feature, hneg, h10, h11]
  · simp [raptor_serializer_set_feature]
  · simp [raptor_serializer_set_feature]
  · simp [raptor_serializer_set_feature, raptor_serializer_get_feature]

/-- Witness for C5: on a fresh instance setting XML version 9 returns
success and leaves the stored version at 10; setting 11 then reading back
gives 11. -/
theorem xml_version_feature_spec_witness :
    raptor_serializer_set_feature fresh_serializer_state .WRITER_XML_VERSION 9
      = (0, fresh_serializer_state)
    ∧ fresh_serializer_state.xml_version = 10
    ∧ raptor_serializer_get_feature
        (raptor_serializer_set_feature fresh_serializer_state .WRITER_XML_VERSION 11).2
        .WRITER_XML_VERSION = 11 := by
  refine ⟨?_, rfl, ?_⟩
  · exact (xml_version_feature_spec fresh_serializer_state 9).1
      (by decide) (by decide) (by decide)
  · exact (xml_version_feature_spec fresh_serializer_state 11).2.2.2

/-- Claim C6: the integer setter fails with -1 and mutates nothing whenever
the value is negative, for every feature, and whenever the feature belongs
to the input-parsing role, for every value; in particular setting the
relative-URI feature to -1 fails and leaves the state unchanged. -/
theorem set_feature_reject_spec (s : SerializerState) (f : raptor_feature)
    (v : Int) :
    (v < 0 → raptor_serializer_set_feature s f v = (-1, s))
    ∧ (is_parser_role_feature f = true →
        raptor_serializer_set_feature s f v = (-1, s))
    ∧ raptor_serializer_set_feature s .RELATIVE_URIS (-1) = (-1, s) := by
  refine ⟨?_, ?_, ?_⟩
  · intro h
    simp [raptor_serializer_set_feature, h]
  · intro h
    by_cases hv : v < 0
    · simp [raptor_serializer_set_feature, hv]
    · cases f <;>
        simp_all [is_parser_role_feature, raptor_serializer_set_feature]
  · have hneg : (-1 : Int) < 0 := by decide
    simp [raptor_serializer_set_feature, hneg]

/-- Witness for C6: the concrete rejected calls, evaluated on a fresh
instance with the SCANNING parser feature and the value -1. -/
theorem set_feature_reject_spec_witness :
    raptor_serializer_set_feature fresh_serializer_state .SCANNING (-1)
      = (-1, fresh_serializer_state)
    ∧ raptor_serializer_set_feature fresh_serializer_state .SCANNING 0
      = (-1, fresh_serializer_state)
    ∧ raptor_serializer_set_feature fresh_serializer_state .RELATIVE_URIS (-1)
      = (-1, fresh_serializer_state) := by
  refine ⟨?_, ?_, ?_⟩
  · exact (set_feature_reject_spec fresh_serializer_state .SCANNING (-1)).1 (by decide)
  · exact (set_feature_reject_spec fresh_serializer_state .SCANNING 0).2.1 rfl
  · exact (set_feature_reject_spec fresh_serializer_state .SCANNING 0).2.2

/-- Claim C8: every successfully constructed serializer instance starts
with the relative-URI feature on, XML version 10, XML declaration emission
on, and all seven string-valued features unset. -/
theorem new_serializer_defaults_spec
    (serializers : List raptor_serializer_factory) (name : Option String)
    (rs : RaptorSerializer)
    (h : raptor_new_serializer serializers name = some rs) :
    rs.state.feature_relative_uris = 1
    ∧ rs.state.xml_version = 10
    ∧ rs.state.feature_write_xml_declaration = 1
    ∧ rs.state.feature_start_uri = none
    ∧ rs.state.feature_resource_border = none
    ∧ rs.state.feature_literal_border = none
    ∧ rs.state.feature_bnode_border = none
    ∧ rs.state.feature_resource_fill = none
    ∧ rs.state.feature_literal_fill = none
    ∧ rs.state.feature_bnode_fill = none := by
  unfold raptor_new_serializer at h
  cases hf : raptor_get_serializer_factory serializers name with
  | none => rw [hf] at h; cases h
  | some factory =>
    rw [hf] at h
    by_cases hrc : (factory.init name 0).1 = 0
    · simp only [hrc, if_pos, Option.some.injEq] at h
      subst h
      simp [fresh_serializer_state]
    · simp [hrc] at h

/-- Witness for C8: the instance built from the concrete registry for the
name ntriples carries exactly the default feature values. -/
theorem new_serializer_defaults_spec_witness :
    demo_instance.state.feature_relative_uris = 1
    ∧ demo_instance.state.xml_version = 10
    ∧ demo_instance.state.feature_write_xml_declaration = 1
    ∧ demo_instance.state.feature_start_uri = none
    ∧ demo_instance.state.feature_resource_border = none
    ∧ demo_instance.state.feature_literal_border = none
    ∧ demo_instance.state.feature_bnode_border = none
    ∧ demo_instance.state.feature_resource_fill = none
    ∧ demo_instance.state.feature_literal_fill = none
    ∧ demo_instance.state.feature_bnode_fill = none :=
  new_serializer_defaults_spec distinct_registry (some "ntriples") demo_instance rfl

/-- Claim C10: the trailing-newline strip in the handler branch of the
diagnostic reporters reads the formatted buffer at index length-1 under
size_t arithmetic; on the empty buffer that index wraps to 2 to the power
64 minus 1 and the read is out of bounds, against the claim that the read
is in bounds for every message. -/
theorem strip_read_empty_buffer_oob :
    strip_read_in_bounds ([] : msg_buffer) = false
    ∧ strip_read_index 0 = 2 ^ 64 - 1 := by
  constructor
  · decide
  · decide

/-- Claim C3 counterexample: two successive start-URI updates on a fresh
instance; the first call stores a value, yet the freed list of the second
call is empty, so the previously stored value is never released, against
the claim that the setter releases any previously stored value for every
string-typed feature; only the second value is retrievable. -/
theorem set_feature_string_start_uri_no_release :
    (set_string_twice fresh_serializer_state .START_URI
        "http://a.example/" "http://b.example/").1.state.feature_start_uri
      = some "http://a.example/"
    ∧ (set_string_twice fresh_serializer_state .START_URI
        "http://a.example/" "http://b.example/").2.freed = []
    ∧ raptor_serializer_get_feature_string
        (set_string_twice fresh_serializer_state .START_URI
          "http://a.example/" "http://b.example/").2.state .START_URI
      = some "http://b.example/" := by
  refine ⟨rfl, rfl, rfl⟩

/-- Claim C3 amended: for the six border and fill string features the
setter releases the previously stored value and stores an owned copy, so
after two successive calls exactly the first value has been freed and only
the second is retrievable; the start-URI feature stores the new value
without releasing the previous one (the old URI is leaked), though the
getter likewise returns only the second value. -/
theorem set_feature_string_twice_spec (feature : raptor_feature)
    (s : SerializerState) (v1 v2 : String) :
    (is_border_fill_feature feature = true →
      ((set_string_twice s feature v1 v2).1.rc = 0
       ∧ raptor_serializer_get_feature_string
           (set_string_twice s feature v1 v2).1.state feature = some v1
       ∧ (set_string_twice s feature v1 v2).2.rc = 0
       ∧ (set_string_twice s feature v1 v2).2.freed = [v1]
       ∧ raptor_serializer_get_feature_string
           (set_string_twice s feature v1 v2).2.state feature = some v2))
    ∧ ((set_string_twice s .START_URI v1 v2).1.freed = []
       ∧ (set_string_twice s .START_URI v1 v2).2.freed = []
       ∧ raptor_serializer_get_feature_string
           (set_string_twice s .START_URI v1 v2).2.state .START_URI = some v2) := by
  constructor
  · intro h
    cases feature <;>
      first
        | exact absurd h (by decide)
        | exact ⟨rfl, rfl, rfl, rfl, rfl⟩
  · exact ⟨rfl, rfl, rfl⟩

/-- Witness for C3 amended: the two-call sequence on the resource border
feature of a fresh instance frees exactly the first value and retrieves the
second. -/
theorem set_feature_string_twice_spec_witness :
    (set_string_twice fresh_serializer_state .RESOURCE_BORDER "red" "blue").2.freed
      = ["red"]
    ∧ raptor_serializer_get_feature_string
        (set_string_twice fresh_serializer_state .RESOURCE_BORDER "red" "blue").2.state
        .RESOURCE_BORDER = some "blue" := by
  have h := (set_feature_string_twice_spec .RESOURCE_BORDER
    fresh_serializer_state "red" "blue").1 rfl
  exact ⟨h.2.2.2.1, h.2.2.2.2⟩

/-- Claim C4 counterexample: with no handler registered, a message that
already ends in a newline is written to the fallback stream followed by the
unconditional final newline, so the output ends in two newlines, an extra
blank line, against the claim that no duplicated trailing newline is
produced. -/
theorem error_fallback_duplicate_newline :
    (raptor_serializer_error_varargs (fun _ => "base.ttl:1:0".data)
        fresh_serializer_state "broken statement\n".data true).stderr_out
      = "base.ttl:1:0 raptor error - broken statement\n\n".data
    ∧ "base.ttl:1:0 raptor error - broken statement\n\n".data.getLast? = some '\n'
    ∧ "base.ttl:1:0 raptor error - broken statement\n\n".data.dropLast.getLast?
      = some '\n' := by
  refine ⟨rfl, by decide, by decide⟩

/-- Claim C4 amended: with no handler of the relevant severity registered, a
diagnostic report writes the rendered location, the severity label and the
message followed by one unconditional newline to the fallback stream and
invokes no handler; this is exactly one line when neither the rendered
location nor the message contains a newline, but the message is not
stripped, so a message already ending in a newline yields a duplicated
trailing newline. -/
theorem diagnostic_fallback_output_spec (printLocator : raptor_locator → msg_buffer)
    (s : SerializerState) (formatted : msg_buffer) (ok : Bool) :
    (s.error_handler = none →
      raptor_serializer_error_varargs printLocator s formatted ok =
        { stderr_out := printLocator s.locator ++ " raptor error - ".data
            ++ formatted ++ ['\n'],
          handler_calls := [] })
    ∧ (s.warning_handler = none →
      raptor_serializer_warning_varargs printLocator s formatted ok =
        { stderr_out := printLocator s.locator ++ " raptor warning - ".data
            ++ formatted ++ ['\n'],
          handler_calls := [] })
    ∧ (s.error_handler = none →
        (printLocator s.locator).count '\n' = 0 →
        formatted.count '\n' = 0 →
        (raptor_serializer_error_varargs printLocator s formatted ok).stderr_out.count '\n'
          = 1) := by
  refine ⟨?_, ?_, ?_⟩
  · intro h
    simp [raptor_serializer_error_varargs, h]
  · intro h
    simp [raptor_serializer_warning_varargs, h]
  · intro h hl hm
    simp [raptor_serializer_error_varargs, h, List.count_append, hl, hm]

/-- Witness for C4 amended: a concrete no-handler report of a one-line
message produces the location, the label, the message and one newline, with
exactly one newline in total. -/
theorem diagnostic_fallback_output_spec_witness :
    raptor_serializer_error_varargs (fun _ => "base.ttl:1:0".data)
        fresh_serializer_state "bad".data true =
      { stderr_out := "base.ttl:1:0 raptor error - bad\n".data, handler_calls := [] }
    ∧ ("base.ttl:1:0 raptor error - bad\n".data.count '\n' = 1) := by
  constructor
  · exact ((diagnostic_fallback_output_spec (fun _ => "base.ttl:1:0".data)
      fresh_serializer_state "bad".data true).1 rfl).trans (by decide)
  · exact (((diagnostic_fallback_output_spec (fun _ => "base.ttl:1:0".data)
      fresh_serializer_state "bad".data true).2.2 rfl (by decide) (by decide)).symm.trans
        (by rfl)).symm

/-- Claim C9: with the handler for the chosen severity registered and the
formatting allocation succeeding, the report strips one trailing newline
from the formatted message if present, invokes that handler exactly once
with the user-data token, the locator snapshot and the stripped message,
and writes nothing to the fallback stream; the strip removes the last
character exactly when it is a newline. -/
theorem diagnostic_handler_path_spec (printLocator : raptor_locator → msg_buffer)
    (s : SerializerState) (formatted : msg_buffer) :
    (∀ h, s.error_handler = some h →
      raptor_serializer_error_varargs printLocator s formatted true =
        { stderr_out := [],
          handler_calls :=
            [(s.error_user_data, s.locator, chomp_newline formatted)] })
    ∧ (∀ h, s.warning_handler = some h →
      raptor_serializer_warning_varargs printLocator s formatted true =
        { stderr_out := [],
          handler_calls :=
            [(s.warning_user_data, s.locator, chomp_newline formatted)] })
    ∧ (formatted.getLast? = some '\n' →
        chomp_newline formatted = formatted.dropLast)
    ∧ (∀ c, formatted.getLast? = some c → c ≠ '\n' →
        chomp_newline formatted = formatted) := by
  refine ⟨?_, ?_, ?_, ?_⟩
  · intro h hh
    simp [raptor_serializer_error_varargs, hh]
  · intro h hh
    simp [raptor_serializer_warning_varargs, hh]
  · intro h
    simp [chomp_newline, h]
  · intro c h hc
    simp [chomp_newline, h, hc]

/-- Witness for C9: a concrete report with both handlers registered and a
newline-terminated message invokes the error handler once with user data 5,
the zero locator and the stripped message, writing nothing to the fallback
stream; the warning path behaves alike; the strip on the concrete message
drops exactly the final newline. -/
theorem diagnostic_handler_path_spec_witness :
    raptor_serializer_error_varargs (fun _ => []) handler_state
        "bad triple\n".data true =
      { stderr_out := [],
        handler_calls :=
          [(5, { uri := none, line := 0, column := 0 }, "bad triple".data)] }
    ∧ raptor_serializer_warning_varargs (fun _ => []) handler_state
        "odd triple\n".data true =
      { stderr_out := [],
        handler_calls :=
          [(6, { uri := none, line := 0, column := 0 }, "odd triple".data)] }
    ∧ chomp_newline "bad x".data = "bad x".data := by
  refine ⟨?_, ?_, ?_⟩
  · exact ((diagnostic_handler_path_spec (fun _ => []) handler_state
      "bad triple\n".data).1 1 rfl).trans (by decide)
  · exact ((diagnostic_handler_path_spec (fun _ => []) handler_state
      "odd triple\n".data).2.1 2 rfl).trans (by decide)
  · exact (diagnostic_handler_path_spec (fun _ => []) handler_state
      "bad x".data).2.2.2 'x' (by decide) (by decide)

/-- A factory matches a wanted name exactly when that name is one of its
identifiers, its primary name or its alias. -/
lemma factory_name_matches_iff (factory : raptor_serializer_factory) (n : String) :
    factory_name_matches factory n = true ↔ n ∈ factory_idents factory := by
  cases h : factory.«alias» with
  | none =>
    constructor
    · intro ht
      have hname : factory.name = n := by
        simpa [factory_name_matches, h] using ht
      simp [factory_idents, h, hname]
    · intro hm
      have hname : n = factory.name := by
        simpa [factory_idents, h] using hm
      simp [factory_name_matches, h, hname]
  | some a =>
    constructor
    · intro ht
      have hor : factory.name = n ∨ a = n := by
        simpa [factory_name_matches, h] using ht
      rcases hor with h1 | h1
      · simp [factory_idents, h, h1]
      · simp [factory_idents, h, h1]
    · intro hm
      have hor : n = factory.name ∨ n = a := by
        simpa [factory_idents, h] using hm
      rcases hor with h1 | h1
      · simp [factory_name_matches, h, h1]
      · simp [factory_name_matches, h, h1]

/-- An identifier of a registered factory is an identifier of the registry. -/
lemma mem_registry_idents {reg : List raptor_serializer_factory}
    {factory : raptor_serializer_factory} (hf : factory ∈ reg) {n : String}
    (hn : n ∈ factory_idents factory) : n ∈ registry_idents reg := by
  induction reg with
  | nil => cases hf
  | cons g rest ih =>
    rw [registry_idents]
    cases hf with
    | head => exact List.mem_append_left _ hn
    | tail _ hf => exact List.mem_append_right _ (ih hf)

/-- In a registry whose identifiers are pairwise distinct, the scan of the
lookup loop run on any identifier of a registered factory stops at exactly
that factory. -/
lemma find_first_of_nodup {reg : List raptor_serializer_factory}
    {factory : raptor_serializer_factory} {n : String}
    (hmem : factory ∈ reg) (hn : n ∈ factory_idents factory)
    (hnd : (registry_idents reg).Nodup) :
    reg.find? (fun g => factory_name_matches g n) = some factory := by
  induction reg with
  | nil => cases hmem
  | cons g rest ih =>
    have hnd2 : (factory_idents g).Nodup ∧ (registry_idents rest).Nodup ∧
        (factory_idents g).Disjoint (registry_idents rest) := by
      rw [registry_idents] at hnd
      exact List.nodup_append.mp hnd
    cases hmem with
    | head =>
      have hp : factory_name_matches factory n = true :=
        (factory_name_matches_iff factory n).mpr hn
      exact List.find?_cons_of_pos _ hp
    | tail _ hmem2 =>
      have hneg : ¬ (factory_name_matches g n = true) := by
        intro htrue
        exact hnd2.2.2 ((factory_name_matches_iff g n).mp htrue)
          (mem_registry_idents hmem2 hn)
      have hstep : List.find? (fun g => factory_name_matches g n) (g :: rest)
          = List.find? (fun g => factory_name_matches g n) rest :=
        List.find?_cons_of_neg _ hneg
      rw [hstep]
      exact ih hmem2 hnd2.2.1

/-- Claim C7 counterexample: a reachable registry in which the alias of the
second descriptor equals the primary name of the first. Lookup by that
alias returns the first descriptor, named ntriples, while lookup by the
primary name of the aliased descriptor returns the descriptor named turtle,
so lookup by alias and lookup by primary name return different descriptors
for this registered alias. -/
theorem lookup_alias_shadowed_counterexample :
    turtle_factory.«alias» = some "ntriples"
    ∧ turtle_factory ∈ alias_shadow_registry
    ∧ lookup_result_name alias_shadow_registry "ntriples" = some "ntriples"
    ∧ lookup_result_name alias_shadow_registry "turtle" = some "turtle"
    ∧ (("ntriples" : String) == "turtle") = false := by
  refine ⟨rfl, ?_, rfl, rfl, by decide⟩
  exact List.Mem.tail _ (List.Mem.head _)

/-- Claim C7 amended: in a registry whose names and aliases are pairwise
distinct, lookup by the alias of any registered descriptor and lookup by
its primary name both return exactly that descriptor; lookup scans in
registration order and returns the first match, not-found when no name or
alias matches; lookup with no name returns the first-registered descriptor,
not-found on an empty registry. -/
theorem lookup_distinct_idents_spec (reg : List raptor_serializer_factory)
    (factory : raptor_serializer_factory)
    (hmem : factory ∈ reg) (hnd : (registry_idents reg).Nodup) :
    raptor_get_serializer_factory reg (some factory.name) = some factory
    ∧ (∀ a, factory.«alias» = some a →
        raptor_get_serializer_factory reg (some a) = some factory)
    ∧ (∀ n, (∀ g, g ∈ reg → factory_name_matches g n = false) →
        raptor_get_serializer_factory reg (some n) = none)
    ∧ raptor_get_serializer_factory reg none = reg.head? := by
  refine ⟨?_, ?_, ?_, rfl⟩
  · exact find_first_of_nodup hmem (by simp [factory_idents]) hnd
  · intro a ha
    exact find_first_of_nodup hmem (by simp [factory_idents, ha, Option.toList]) hnd
  · intro n hall
    have hnone : ∀ g, g ∈ reg → ¬ ((fun g => factory_name_matches g n) g = true) := by
      intro g hg htrue
      have htrue2 : factory_name_matches g n = true := htrue
      rw [hall g hg] at htrue2
      cases htrue2
    exact List.find?_eq_none.mpr hnone

/-- Witness for C7 amended: in the concrete registry with distinct
identifiers, lookup by the alias rdf and by the primary name rdfxml both
return the rdfxml descriptor; a lookup for an unknown name fails; lookup
with no name returns the first-registered descriptor. -/
theorem lookup_distinct_idents_spec_witness :
    raptor_get_serializer_factory distinct_registry (some "rdfxml")
      = some rdfxml_factory
    ∧ raptor_get_serializer_factory distinct_registry (some "rdf")
      = some rdfxml_factory
    ∧ raptor_get_serializer_factory distinct_registry (some "json")
      = none
    ∧ raptor_get_serializer_factory distinct_registry none
      = some ntriples_factory := by
  have h := lookup_distinct_idents_spec distinct_registry rdfxml_factory
    (List.Mem.tail _ (List.Mem.head _)) (by decide)
  refine ⟨h.1, h.2.1 "rdf" rfl, ?_, h.2.2.2.trans rfl⟩
  refine h.2.2.1 "json" ?_
  intro g hg
  cases hg with
  | head => decide
  | tail _ hg2 =>
    cases hg2 with
    | head => decide
    | tail _ hg3 => cases hg3
